import Mathlib

/-!
Shallow embedding of the `memory-mem0` plugin (`src/index.ts`): a thin HTTP
client (`Mem0Client`) with four operations (search / add / list / delete),
three tool handlers, and two lifecycle hooks (pre-run recall, post-run
capture).  JavaScript strings are modelled as Lean `String`s (operating on
`String.data` where JS semantics matter), JS numbers as `ℚ`, and the remote
server / transport as an explicit outcome value passed to each operation.
-/

/-! ## JS string primitives -/

/-- Model of JS `String.prototype.trim()`: drop leading and trailing
whitespace characters. -/
def jsTrim (s : String) : String :=
  ⟨((s.data.dropWhile Char.isWhitespace).reverse.dropWhile Char.isWhitespace).reverse⟩

/-- Model of JS `String.prototype.includes(pat)`: substring containment. -/
def jsIncludes (s pat : String) : Bool :=
  decide (pat.data <:+: s.data)

/-! ## Data model (interfaces `Mem0Config`, `Memory`, responses) -/

/-- `interface Mem0Config` (src/index.ts lines 3–10). -/
structure Mem0Config where
  baseUrl : String
  userId : String
  autoCapture : Bool
  autoRecall : Bool
  recallLimit : ℚ
  recallThreshold : ℚ
deriving DecidableEq, Repr

/-- `interface Memory` (src/index.ts lines 12–17); `score?` and `metadata?`
are optional fields. -/
structure Memory where
  id : String
  memory : String
  score : Option ℚ := none
  metadata : Option (List (String × String)) := none
deriving DecidableEq, Repr

/-- `interface SearchResponse` (lines 19–21); `memories` may be absent in a
malformed body, which line 100 (`data.memories || []`) tolerates. -/
structure SearchResponse where
  memories : Option (List Memory)
deriving DecidableEq, Repr

/-- One element of `result.results` in `interface AddResponse` (lines 26–30). -/
structure AddResultItem where
  id : String
  memory : String
  event : String
deriving DecidableEq, Repr

/-- The `result` field of `AddResponse` (lines 25–31). -/
structure AddResponseResult where
  results : List AddResultItem
deriving DecidableEq, Repr

/-- `interface AddResponse` (lines 23–32). -/
structure AddResponse where
  success : Bool
  result : AddResponseResult
deriving DecidableEq, Repr

/-! ## Configuration parsing (`configSchema.parse`, lines 34–46) -/

/-- The raw, host-supplied plugin configuration: every field may be absent. -/
structure RawConfig where
  baseUrl : Option String := none
  userId : Option String := none
  autoCapture : Option Bool := none
  autoRecall : Option Bool := none
  recallLimit : Option ℚ := none
  recallThreshold : Option ℚ := none
deriving DecidableEq, Repr

/-- JS `v || d` for a possibly-absent string: `undefined` and `""` are falsy. -/
def jsOrString (v : Option String) (d : String) : String :=
  match v with
  | none => d
  | some s => if s = "" then d else s

/-- JS `v || d` for a possibly-absent number: `undefined` and `0` are falsy. -/
def jsOrNum (v : Option ℚ) (d : ℚ) : ℚ :=
  match v with
  | none => d
  | some x => if x = 0 then d else x

/-- JS `v !== false`: true unless the field is present and exactly `false`. -/
def jsNotFalse (v : Option Bool) : Bool :=
  match v with
  | some false => false
  | _ => true

/-- `configSchema.parse` (lines 35–45).  `(value as any) || {}` maps an
absent configuration object to the empty one. -/
def configSchema.parse (value : Option RawConfig) : Mem0Config :=
  let v := value.getD {}
  { baseUrl := jsOrString v.baseUrl "http://127.0.0.1:8420"
    userId := jsOrString v.userId "openclaw"
    autoCapture := jsNotFalse v.autoCapture
    autoRecall := jsNotFalse v.autoRecall
    recallLimit := jsOrNum v.recallLimit 5
    recallThreshold := jsOrNum v.recallThreshold 0.4 }

/-! ## Transport outcomes

Each `fetch` either resolves to a response with `response.ok` true
(`success`, carrying the parsed JSON body), resolves with a non-2xx status
(`httpError`), or rejects / throws somewhere inside the `try` block
(`throws`). -/

inductive FetchOutcome (α : Type) where
  | success (body : α)
  | httpError (status : Nat)
  | throws
deriving DecidableEq, Repr

/-! ## Health check (`Mem0Client.ensureHealthy`, lines 56–75)

`this.healthChecked = true` (line 71) sits inside the `try`, after the
response inspection: it executes when the fetch resolved (whether
`response.ok` or not), but not when the fetch (or `response.json()`)
threw — in that case control jumps to `catch` with the flag still false. -/

/-- Outcome of one health probe, as the code distinguishes them. -/
inductive ProbeOutcome where
  | ok
  | httpFail
  | throws
deriving DecidableEq, Repr

/-- One call to `ensureHealthy`: given the current `healthChecked` flag and
the outcome the world supplies for the next probe, return the new flag and
whether a probe was issued. -/
def ensureHealthy (healthChecked : Bool) (outcome : ProbeOutcome) : Bool × Bool :=
  if healthChecked then (true, false)
  else
    match outcome with
    | .throws => (false, true)
    | .ok => (true, true)
    | .httpFail => (true, true)

/-- The four client operations; each begins with `await this.ensureHealthy()`
(lines 78, 108, 135, 163). -/
inductive Op where
  | search
  | add
  | list
  | delete
deriving DecidableEq, Repr

/-- Client health state: the memoization flag plus the number of probes
issued so far (the latter is ghost bookkeeping for counting). -/
structure HealthState where
  healthChecked : Bool
  probes : Nat
deriving DecidableEq, Repr

/-- Run one operation's `ensureHealthy` prelude.  `world n` is the outcome
the environment supplies for the `n`-th probe. -/
def opStep (world : Nat → ProbeOutcome) (st : HealthState) (_op : Op) : HealthState :=
  let (flag, probed) := ensureHealthy st.healthChecked (world st.probes)
  { healthChecked := flag, probes := if probed then st.probes + 1 else st.probes }

/-- Run a sequence of operations on a fresh client
(`private healthChecked = false`, line 50). -/
def runOps (world : Nat → ProbeOutcome) (ops : List Op) : HealthState :=
  ops.foldl (opStep world) { healthChecked := false, probes := 0 }

/-! ## `Mem0Client.search` (lines 77–105) -/

/-- The query parameters of the search GET request (lines 80–84).  The
`limit` sent is `String(limit || this.config.recallLimit)`: an absent (or
zero, being falsy) caller limit falls back to the configured recall limit. -/
structure SearchParams where
  query : String
  user_id : String
  limit : ℚ
deriving DecidableEq, Repr

/-- Build the search query parameters from the arguments (lines 80–84). -/
def Mem0Client.searchParams (cfg : Mem0Config) (query : String)
    (limit : Option ℚ) : SearchParams :=
  { query := query, user_id := cfg.userId, limit := jsOrNum limit cfg.recallLimit }

/-- The body of `search`'s `try` block: non-ok status throws (line 96),
otherwise the parsed body's `memories` field, coalesced with `[]`
(line 100). -/
def Mem0Client.searchTry (tr : FetchOutcome SearchResponse) :
    Except String (List Memory) :=
  match tr with
  | .throws => .error "fetch rejected"
  | .httpError s => .error ("Search failed: " ++ toString s)
  | .success data => .ok (data.memories.getD [])

/-- The observable effect of one `Mem0Client.search` call: the request
parameters it sent, the list it returned, and the log lines it emitted. -/
structure SearchCall where
  params : SearchParams
  result : List Memory
  logs : List String
deriving DecidableEq, Repr

/-- `Mem0Client.search` (lines 77–105): the `catch` (lines 101–104) logs and
returns `[]`; the function always returns a plain list, never an error. -/
def Mem0Client.search (cfg : Mem0Config) (query : String) (limit : Option ℚ)
    (tr : FetchOutcome SearchResponse) : SearchCall :=
  match Mem0Client.searchTry tr with
  | .ok ms =>
    { params := Mem0Client.searchParams cfg query limit, result := ms, logs := [] }
  | .error e =>
    { params := Mem0Client.searchParams cfg query limit, result := []
      logs := ["[memory-mem0] Search error: " ++ e] }

/-! ## `Mem0Client.add` (lines 107–132) -/

/-- The `metadata` object of the POST body: `agentId ? { agent_id: agentId }
: undefined` (line 113); an empty-string `agentId` is falsy. -/
structure AddMetadata where
  agent_id : String
deriving DecidableEq, Repr

/-- The JSON body POSTed to `/memories` (lines 110–114).  A `none` metadata
is `undefined`, which `JSON.stringify` omits, so the serialized body has no
`agent_id` key. -/
structure AddRequestBody where
  content : String
  user_id : String
  metadata : Option AddMetadata
deriving DecidableEq, Repr

/-- Build the POST body from the arguments (lines 110–114). -/
def Mem0Client.addBody (cfg : Mem0Config) (content : String)
    (agentId : Option String) : AddRequestBody :=
  { content := content
    user_id := cfg.userId
    metadata :=
      match agentId with
      | none => none
      | some a => if a = "" then none else some ⟨a⟩ }

/-- An HTTP request issued by the client, as far as the claims observe it. -/
structure HttpRequest where
  method : String
  path : String
  body : Option AddRequestBody := none
deriving DecidableEq, Repr

/-- The requests issued by one `add` call: exactly the single POST of
line 117. -/
def Mem0Client.addRequests (cfg : Mem0Config) (content : String)
    (agentId : Option String) : List HttpRequest :=
  [{ method := "POST", path := "/memories"
     body := some (Mem0Client.addBody cfg content agentId) }]

/-- The body of `add`'s `try` block: non-ok throws (line 124), otherwise the
parsed `AddResponse` (line 127). -/
def Mem0Client.addTry (tr : FetchOutcome AddResponse) :
    Except String AddResponse :=
  match tr with
  | .throws => .error "fetch rejected"
  | .httpError s => .error ("Add failed: " ++ toString s)
  | .success data => .ok data

/-- `Mem0Client.add`: the `catch` (lines 128–131) logs and returns `null`,
modelled as `none`. -/
def Mem0Client.add (tr : FetchOutcome AddResponse) :
    Option AddResponse × List String :=
  match Mem0Client.addTry tr with
  | .ok r => (some r, [])
  | .error e => (none, ["[memory-mem0] Add error: " ++ e])

/-! ## `Mem0Client.delete` (lines 162–180) -/

/-- The body of `delete`'s `try` block: non-ok throws (line 172), otherwise
`true` (line 175). -/
def Mem0Client.deleteTry (tr : FetchOutcome Unit) : Except String Bool :=
  match tr with
  | .throws => .error "fetch rejected"
  | .httpError s => .error ("Delete failed: " ++ toString s)
  | .success _ => .ok true

/-- The single DELETE request issued for an identifier (line 166); the path
is relative to the configured base URL. -/
def Mem0Client.deleteRequest (id : String) : HttpRequest :=
  { method := "DELETE", path := "/memories/" ++ id }

/-- `Mem0Client.delete`: the `catch` (lines 176–179) logs and returns
`false`.  Returns the boolean together with the log lines emitted; the
identifier shapes only the request path. -/
def Mem0Client.delete (_id : String) (tr : FetchOutcome Unit) :
    Bool × List String :=
  match Mem0Client.deleteTry tr with
  | .ok b => (b, [])
  | .error e => (false, ["[memory-mem0] Delete error: " ++ e])

/-! ## Tool `memory_store` (lines 252–294) -/

/-- The `execute` handler of the `memory_store` tool, as a function of the
`client.add` result (line 269): `!result || !result.success` reports
failure (lines 271–280); otherwise the stored texts are joined with `", "`
(line 282) and echoed (line 287). -/
def memory_store_output (result : Option AddResponse) : String :=
  match result with
  | none => "Failed to store memory."
  | some r =>
    if !r.success then "Failed to store memory."
    else
      "Stored in memory: " ++
        String.intercalate ", " (r.result.results.map (fun x => x.memory))

/-! ## Pre-run recall hook (`before_agent_start`, lines 384–404) -/

/-- `m.score || 0` (line 391): an absent score — and a stored score of `0`,
both being falsy — is compared as `0`. -/
def scoreOrZero (m : Memory) : ℚ :=
  (m.score.getD 0)

/-- The `relevant` filter (lines 390–392). -/
def relevantMemories (cfg : Mem0Config) (ms : List Memory) : List Memory :=
  ms.filter (fun m => decide (cfg.recallThreshold ≤ scoreOrZero m))

/-- Model of JS `Number.prototype.toFixed(2)` (round to hundredths, two
decimal digits); exact for the in-range, representable scores involved
here.  Uses floor division so negative inputs are still total. -/
def toFixed2 (q : ℚ) : String :=
  let n : Int := Int.fdiv (200 * q.num + (q.den : Int)) (2 * (q.den : Int))
  let sign := if n < 0 then "-" else ""
  let a := n.natAbs
  let frac := a % 100
  sign ++ toString (a / 100) ++ "." ++
    (if frac < 10 then "0" ++ toString frac else toString frac)

/-- `${m.score?.toFixed(2)}` (line 397): an absent score renders as the
string `undefined` inside the template literal. -/
def optionScoreText (score : Option ℚ) : String :=
  match score with
  | none => "undefined"
  | some q => toFixed2 q

/-- One line of the injected block (line 397). -/
def formatMemoryLine (m : Memory) : String :=
  "- " ++ m.memory ++ " [score: " ++ optionScoreText m.score ++ "]"

/-- The prepended context block (lines 400–402) built from the relevant
memories. -/
def prependContext (rel : List Memory) : String :=
  "<relevant-memories>\nRelevant facts from long-term memory:\n" ++
    String.intercalate "\n" (rel.map formatMemoryLine) ++
    "\n</relevant-memories>"

/-- The `before_agent_start` handler (lines 385–403), as a function of the
prompt and of the memory list returned by `client.search` (line 389):
`none` models the handler returning without a context change (blank prompt,
line 387, or no qualifying result, line 394); `some rel` models returning
the block built from the relevant list `rel`. -/
def before_agent_start (cfg : Mem0Config) (prompt : String)
    (ms : List Memory) : Option (List Memory) :=
  if jsTrim prompt = "" then none
  else
    let relevant := relevantMemories cfg ms
    if relevant.isEmpty then none else some relevant

/-- The handler's returned `prependContext` string (lines 400–402), when
any. -/
def before_agent_start_hook (cfg : Mem0Config) (prompt : String)
    (ms : List Memory) : Option String :=
  (before_agent_start cfg prompt ms).map prependContext

/-! ## Post-run capture hook (`agent_end`, lines 407–425) -/

/-- One entry of `event.messages`; `content` may be absent
(`msg.content || ""`, line 413). -/
structure ChatMessage where
  role : String
  content : Option String
deriving DecidableEq, Repr

/-- The loop-prevention marker (line 416). -/
def recallMarker : String :=
  "<relevant-memories>"

/-- `msg.content || ""` (line 413). -/
def messageText (m : ChatMessage) : String :=
  m.content.getD ""

/-- Whether the `agent_end` loop reaches `client.add` for a message: role
`user` or `assistant` (line 412), no recall marker (line 416), and trimmed
length at least 50 (line 419). -/
def capturesMessage (m : ChatMessage) : Bool :=
  (m.role = "user" || m.role = "assistant") &&
    !(jsIncludes (messageText m) recallMarker) &&
    decide (50 ≤ (jsTrim (messageText m)).length)

/-- The `agent_end` loop (lines 411–423): for each qualifying message, call
`client.add(text, event.agentId)` and continue with the rest regardless of
that call's outcome (its result — `none` on failure — is discarded).
`world k` is the transport outcome of the `k`-th add call; the returned
list records the `(content, agentId)` arguments of each add call issued, in
order. -/
def agent_end_run (world : Nat → FetchOutcome AddResponse)
    (agentId : Option String) :
    List ChatMessage → Nat → List (String × Option String)
  | [], _ => []
  | m :: rest, k =>
    if capturesMessage m then
      let _discarded := Mem0Client.add (world k)
      (messageText m, agentId) :: agent_end_run world agentId rest (k + 1)
    else
      agent_end_run world agentId rest k

/-- The add calls issued by one `agent_end` invocation. -/
def agent_end_calls (world : Nat → FetchOutcome AddResponse)
    (agentId : Option String) (msgs : List ChatMessage) :
    List (String × Option String) :=
  agent_end_run world agentId msgs 0

/-! ## Concrete instances used by several claims -/

/-- The default configuration: `configSchema.parse` of an absent object,
giving `recallThreshold = 0.4` and `recallLimit = 5`. -/
def defaultConfig : Mem0Config :=
  configSchema.parse none

/-- A search result scoring 0.87. -/
def memHigh : Memory :=
  { id := "m1", memory := "The build uses a monorepo", score := some 0.87 }

/-- A search result scoring 0.2. -/
def memLow : Memory :=
  { id := "m2", memory := "An unrelated note", score := some 0.2 }

/-- A 49-character message (49 `a`s). -/
def msg49 : ChatMessage :=
  { role := "user", content := some (String.mk (List.replicate 49 'a')) }

/-- A 50-character, already-trimmed message (50 `a`s). -/
def msg50 : ChatMessage :=
  { role := "user", content := some (String.mk (List.replicate 50 'a')) }

/-- A 50-character message whose last character is a space, so its trimmed
text has only 49 characters. -/
def msg50pad : ChatMessage :=
  { role := "user", content := some (String.mk (List.replicate 49 'a' ++ [' '])) }

/-- A long message text that contains the recall marker. -/
def markerText : String :=
  recallMarker ++ String.mk (List.replicate 50 'a')

/-- A search result with no score field. -/
def memUnscored : Memory :=
  { id := "m0", memory := "An unscored result", score := none }

/-- An explicitly supplied configuration whose values are all falsy:
`userId` is the empty string, `recallLimit` and `recallThreshold` are 0. -/
def falsyRawConfig : RawConfig :=
  { userId := some "", recallLimit := some 0, recallThreshold := some 0 }

/-! ## General lemmas about the embedding -/

/-- JS `trim` never lengthens a string. -/
theorem jsTrim_length_le (s : String) : (jsTrim s).length ≤ s.length := by
  show (((s.data.dropWhile Char.isWhitespace).reverse.dropWhile
      Char.isWhitespace).reverse).length ≤ s.data.length
  rw [List.length_reverse]
  calc ((s.data.dropWhile Char.isWhitespace).reverse.dropWhile
          Char.isWhitespace).length
      ≤ (s.data.dropWhile Char.isWhitespace).reverse.length :=
        (List.dropWhile_sublist _).length_le
    _ = (s.data.dropWhile Char.isWhitespace).length :=
        List.length_reverse _
    _ ≤ s.data.length := (List.dropWhile_sublist _).length_le

/-- The add calls issued by the `agent_end` loop are exactly one call per
qualifying message, in conversation order, whatever the outcomes of the
individual calls are. -/
theorem agent_end_run_eq_filter (world : Nat → FetchOutcome AddResponse)
    (agentId : Option String) (msgs : List ChatMessage) (k : Nat) :
    agent_end_run world agentId msgs k =
      (msgs.filter capturesMessage).map (fun m => (messageText m, agentId)) := by
  induction msgs generalizing k with
  | nil => rfl
  | cons m rest ih =>
    by_cases h : capturesMessage m
    · simp [agent_end_run, h, List.filter_cons, ih]
    · simp [agent_end_run, h, List.filter_cons, ih]

/-- Membership in the relevant-memory filter of the recall hook. -/
theorem mem_relevantMemories (cfg : Mem0Config) (ms : List Memory)
    (m : Memory) :
    m ∈ relevantMemories cfg ms ↔
      m ∈ ms ∧ cfg.recallThreshold ≤ scoreOrZero m := by
  simp [relevantMemories, List.mem_filter]

/-- Once the health flag is set, further operations neither probe nor change
the state. -/
theorem runOps_fixed_of_checked (world : Nat → ProbeOutcome)
    (ops : List Op) (n : Nat) :
    ops.foldl (opStep world) { healthChecked := true, probes := n } =
      { healthChecked := true, probes := n } := by
  induction ops with
  | nil => rfl
  | cons o rest ih =>
    simpa [List.foldl_cons, opStep, ensureHealthy] using ih

/-! ## Claim C1 — health probe memoization -/

/-- C1 (counterexample): the health probe is *not* executed at most once per
client instance.  When the first probe's fetch rejects (server unreachable),
line 71 (`this.healthChecked = true`) is never reached, so a second `search`
issues a second probe: two operations against an always-throwing transport
yield two probes. -/
theorem c1_counterexample :
    (runOps (fun _ => ProbeOutcome.throws) [Op.search, Op.search]).probes = 2 ∧
      ¬ (runOps (fun _ => ProbeOutcome.throws)
          [Op.search, Op.search]).probes ≤ 1 := by
  decide

/-- C1 (amended): the `checked` flag is set after the first probe whose
fetch *completes* (with a 2xx or a non-2xx status); a probe whose fetch
throws leaves the flag unset and the next operation probes again.  In
particular, whenever the first probe does not throw, at most one probe is
executed across any sequence of operations, and after any operation the
flag is set. -/
theorem c1_probe_memoized_when_first_probe_completes
    (world : Nat → ProbeOutcome) (ops : List Op)
    (h : world 0 ≠ ProbeOutcome.throws) :
    (runOps world ops).probes ≤ 1 ∧
      (ops ≠ [] → (runOps world ops).healthChecked = true) := by
  cases ops with
  | nil => exact ⟨Nat.zero_le 1, fun hne => absurd rfl hne⟩
  | cons o rest =>
    have hstep : opStep world { healthChecked := false, probes := 0 } o =
        { healthChecked := true, probes := 1 } := by
      cases hw : world 0 with
      | ok => simp [opStep, ensureHealthy, hw]
      | httpFail => simp [opStep, ensureHealthy, hw]
      | throws => exact absurd hw h
    have : runOps world (o :: rest) = { healthChecked := true, probes := 1 } := by
      simp only [runOps, List.foldl_cons, hstep]
      exact runOps_fixed_of_checked world rest 1
    rw [this]
    exact ⟨Nat.le_refl 1, fun _ => rfl⟩

/-- C1 (witness): on a client whose first probe completes, a run of all four
operations issues at most one probe and leaves the flag set. -/
theorem c1_witness :
    (runOps (fun _ => ProbeOutcome.ok)
        [Op.search, Op.add, Op.list, Op.delete]).probes ≤ 1 ∧
      (runOps (fun _ => ProbeOutcome.ok)
          [Op.search, Op.add, Op.list, Op.delete]).healthChecked = true :=
  ⟨(c1_probe_memoized_when_first_probe_completes (fun _ => ProbeOutcome.ok)
      [Op.search, Op.add, Op.list, Op.delete] (by decide)).1,
   (c1_probe_memoized_when_first_probe_completes (fun _ => ProbeOutcome.ok)
      [Op.search, Op.add, Op.list, Op.delete] (by decide)).2 (by decide)⟩

/-! ## Claim C2 — post-run capture length threshold -/

/-- C2 (counterexample): a 50-character message (49 `a`s followed by a
space) that does not contain the recall marker triggers *zero* store calls,
because line 419 tests `text.trim().length < 50` and the trimmed text has
only 49 characters; the claim as stated promises exactly one store call. -/
theorem c2_counterexample :
    (messageText msg50pad).length = 50 ∧
      jsIncludes (messageText msg50pad) recallMarker = false ∧
      msg50pad.role = "user" ∧
      agent_end_calls (fun _ => FetchOutcome.throws) none [msg50pad] = [] := by
  refine ⟨by decide, by decide, rfl, ?_⟩
  decide

/-- C2 (amended): every message whose *trimmed* text is shorter than 50
characters is skipped (zero store calls) — in particular every message whose
text is shorter than 50 characters, such as a 49-character one; and a
user/assistant message without the recall marker whose trimmed text has at
least 50 characters (e.g. a 50-character message with no leading or trailing
whitespace) triggers exactly one store call. -/
theorem c2_capture_length_threshold
    (world : Nat → FetchOutcome AddResponse) (aid : Option String)
    (m : ChatMessage) :
    ((jsTrim (messageText m)).length < 50 →
      capturesMessage m = false ∧ agent_end_calls world aid [m] = []) ∧
    ((messageText m).length < 50 →
      capturesMessage m = false ∧ agent_end_calls world aid [m] = []) ∧
    ((m.role = "user" ∨ m.role = "assistant") →
      jsIncludes (messageText m) recallMarker = false →
      50 ≤ (jsTrim (messageText m)).length →
      agent_end_calls world aid [m] = [(messageText m, aid)]) := by
  have hskip : ∀ hlt : (jsTrim (messageText m)).length < 50,
      capturesMessage m = false ∧ agent_end_calls world aid [m] = [] := by
    intro hlt
    have hc : capturesMessage m = false := by
      simp only [capturesMessage, Bool.and_eq_false_iff]
      right
      simpa using Nat.not_le.mpr hlt
    refine ⟨hc, ?_⟩
    simp [agent_end_calls, agent_end_run, hc]
  refine ⟨hskip, ?_, ?_⟩
  · intro hlt
    exact hskip (Nat.lt_of_le_of_lt (jsTrim_length_le _) hlt)
  · intro hrole hmarker hlen
    have hc : capturesMessage m = true := by
      simp only [capturesMessage, Bool.and_eq_true, decide_eq_true_eq]
      refine ⟨⟨?_, by simp [hmarker]⟩, hlen⟩
      rcases hrole with h | h <;> simp [h]
    simp [agent_end_calls, agent_end_run, hc]

/-- C2 (witness): the 49-character message yields zero store calls; the
50-character trimmed message yields exactly one. -/
theorem c2_witness :
    agent_end_calls (fun _ => FetchOutcome.throws) none [msg49] = [] ∧
      agent_end_calls (fun _ => FetchOutcome.throws) none [msg50] =
        [(messageText msg50, none)] :=
  ⟨((c2_capture_length_threshold (fun _ => FetchOutcome.throws) none
        msg49).2.1 (by decide)).2,
   (c2_capture_length_threshold (fun _ => FetchOutcome.throws) none
        msg50).2.2 (Or.inl rfl) (by decide) (by decide)⟩

/-! ## Claim C3 — recall injects iff a score meets the threshold -/

/-- C3: for every non-blank prompt (and positive configured threshold), the
pre-run recall hook returns a context block if and only if at least one
search result has a score at or above the threshold; with the default
threshold 0.4 and results scored 0.87 and 0.2, the relevant list is exactly
the 0.87 result and the injected block contains exactly one memory line. -/
theorem c3_recall_injects_iff_threshold_met :
    (∀ (cfg : Mem0Config) (prompt : String) (ms : List Memory),
      jsTrim prompt ≠ "" → 0 < cfg.recallThreshold →
      ((before_agent_start cfg prompt ms).isSome ↔
        ∃ m ∈ ms, ∃ s, m.score = some s ∧ cfg.recallThreshold ≤ s)) ∧
    (before_agent_start defaultConfig "What does the build use?"
        [memHigh, memLow] = some [memHigh] ∧
      before_agent_start_hook defaultConfig "What does the build use?"
        [memHigh, memLow] = some (prependContext [memHigh]) ∧
      ([memHigh].map formatMemoryLine).length = 1) := by
  have hmain : ∀ (cfg : Mem0Config) (prompt : String) (ms : List Memory),
      jsTrim prompt ≠ "" → 0 < cfg.recallThreshold →
      ((before_agent_start cfg prompt ms).isSome ↔
        ∃ m ∈ ms, ∃ s, m.score = some s ∧ cfg.recallThreshold ≤ s) := by
    intro cfg prompt ms hp hθ
    simp only [before_agent_start, if_neg hp]
    by_cases he : (relevantMemories cfg ms).isEmpty
    · rw [if_pos he]
      simp only [Option.isSome_none, Bool.false_eq_true, false_iff]
      rintro ⟨m, hms, s, hsc, hle⟩
      have hmem : m ∈ relevantMemories cfg ms :=
        (mem_relevantMemories cfg ms m).mpr
          ⟨hms, by simp [scoreOrZero, hsc, hle]⟩
      rw [List.isEmpty_iff] at he
      simp [he] at hmem
    · rw [if_neg he]
      simp only [Option.isSome_some, true_iff]
      rw [List.isEmpty_iff] at he
      obtain ⟨m, hm⟩ := List.exists_mem_of_ne_nil _ he
      obtain ⟨hms, hle⟩ := (mem_relevantMemories cfg ms m).mp hm
      cases hsc : m.score with
      | none =>
        rw [scoreOrZero, hsc] at hle
        simp only [Option.getD_none] at hle
        exact absurd hle (not_le.mpr hθ)
      | some s =>
        refine ⟨m, hms, s, hsc, ?_⟩
        rwa [scoreOrZero, hsc, Option.getD_some] at hle
  have hrel : relevantMemories defaultConfig [memHigh, memLow] = [memHigh] := by
    have e1 : decide (defaultConfig.recallThreshold ≤ scoreOrZero memHigh)
        = true := by
      rw [decide_eq_true_eq]
      show (0.4 : ℚ) ≤ 0.87
      norm_num
    have e2 : decide (defaultConfig.recallThreshold ≤ scoreOrZero memLow)
        = false := by
      rw [decide_eq_false_iff_not]
      show ¬ (0.4 : ℚ) ≤ 0.2
      norm_num
    simp [relevantMemories, List.filter, e1, e2]
  have hprompt : jsTrim "What does the build use?" ≠ "" := by decide
  have hconc : before_agent_start defaultConfig "What does the build use?"
      [memHigh, memLow] = some [memHigh] := by
    simp [before_agent_start, hprompt, hrel]
  refine ⟨hmain, hconc, ?_, by simp⟩
  rw [before_agent_start_hook, hconc]
  rfl

/-- C3 (witness): with the default threshold and the 0.87-scored result
present, the hook returns a block. -/
theorem c3_witness :
    (before_agent_start defaultConfig "What does the build use?"
        [memHigh, memLow]).isSome = true :=
  (c3_recall_injects_iff_threshold_met.1 defaultConfig
      "What does the build use?" [memHigh, memLow] (by decide)
      ((by norm_num : (0 : ℚ) < 0.4))).mpr
    ⟨memHigh, by simp, 0.87, rfl, (by norm_num : (0.4 : ℚ) ≤ 0.87)⟩

/-! ## Claim C4 — marker-containing messages are never stored -/

/-- C4: no store call is ever issued for a message whose text contains the
literal substring `<relevant-memories>`, whatever its length: line 416's
`continue` precedes the `client.add` call. -/
theorem c4_marker_never_stored (world : Nat → FetchOutcome AddResponse)
    (aid : Option String) (msgs : List ChatMessage) (k : Nat) (t : String)
    (h : jsIncludes t recallMarker = true) :
    t ∉ (agent_end_run world aid msgs k).map Prod.fst := by
  rw [agent_end_run_eq_filter]
  intro hmem
  simp only [List.map_map, List.mem_map, Function.comp] at hmem
  obtain ⟨m, hm, hmt⟩ := hmem
  have hcap := (List.mem_filter.mp hm).2
  simp only [capturesMessage, Bool.and_eq_true, Bool.not_eq_true'] at hcap
  have hmark : jsIncludes (messageText m) recallMarker = false := hcap.1.2
  rw [show messageText m = t from hmt] at hmark
  rw [h] at hmark
  exact Bool.true_eq_false.mp hmark

/-- C4 (witness): a 69-character user message containing the marker issues
no store call. -/
theorem c4_witness :
    markerText ∉
      (agent_end_run (fun _ => FetchOutcome.throws) none
          [{ role := "user", content := some markerText }] 0).map Prod.fst :=
  c4_marker_never_stored (fun _ => FetchOutcome.throws) none
    [{ role := "user", content := some markerText }] 0 markerText (by decide)

/-! ## Claim C5 — search failure yields an empty list -/

/-- C5: for every configuration, query string and limit, if the fetch throws
or the server responds with a non-2xx status, `search` returns the empty
list; the `catch` at lines 101–104 converts both failures into a plain `[]`
return, so no exception reaches the caller. -/
theorem c5_search_failure_returns_empty (cfg : Mem0Config) (query : String)
    (limit : Option ℚ) (tr : FetchOutcome SearchResponse)
    (h : tr = FetchOutcome.throws ∨ ∃ s, tr = FetchOutcome.httpError s) :
    (Mem0Client.search cfg query limit tr).result = [] := by
  rcases h with h | ⟨s, h⟩ <;> subst h <;> rfl

/-- C5 (witness): an unreachable server (rejecting fetch) yields `[]`. -/
theorem c5_witness :
    (Mem0Client.search defaultConfig "anything" none
        FetchOutcome.throws).result = [] :=
  c5_search_failure_returns_empty defaultConfig "anything" none
    FetchOutcome.throws (Or.inl rfl)

/-! ## Claim C6 — delete failure yields false, success yields true -/

/-- C6: for every identifier, a non-2xx response or a thrown fetch makes
`delete` return `false` and emit a log line (the `catch` at lines 176–179),
never an exception; any 2xx response makes it return `true` with no log. -/
theorem c6_delete_false_on_failure_true_on_success (id : String)
    (tr : FetchOutcome Unit) :
    ((tr = FetchOutcome.throws ∨ ∃ s, tr = FetchOutcome.httpError s) →
      (Mem0Client.delete id tr).1 = false ∧ (Mem0Client.delete id tr).2 ≠ []) ∧
    (tr = FetchOutcome.success () → Mem0Client.delete id tr = (true, [])) := by
  constructor
  · rintro (h | ⟨s, h⟩) <;> subst h
    · exact ⟨rfl, by simp [Mem0Client.delete, Mem0Client.deleteTry]⟩
    · exact ⟨rfl, by simp [Mem0Client.delete, Mem0Client.deleteTry]⟩
  · rintro rfl
    rfl

/-- C6 (witness): a 500 response yields `false` with a log line; a 2xx
response yields `true`. -/
theorem c6_witness :
    (Mem0Client.delete "mem-1" (FetchOutcome.httpError 500)).1 = false ∧
      Mem0Client.delete "mem-1" (FetchOutcome.success ()) = (true, []) :=
  ⟨((c6_delete_false_on_failure_true_on_success "mem-1"
        (FetchOutcome.httpError 500)).1 (Or.inr ⟨500, rfl⟩)).1,
   (c6_delete_false_on_failure_true_on_success "mem-1"
        (FetchOutcome.success ())).2 rfl⟩

/-! ## Claim C7 — messages are stored independently -/

/-- C7: the post-run capture loop issues one independent add call per
qualifying message — the calls issued do not depend on the outcomes of the
individual adds, because a failed add yields `none` (the `catch` at lines
128–131) rather than an exception, and the loop discards the result. -/
theorem c7_capture_stores_independently
    (world : Nat → FetchOutcome AddResponse) (aid : Option String)
    (msgs : List ChatMessage) (k : Nat) :
    agent_end_run world aid msgs k =
      (msgs.filter capturesMessage).map (fun m => (messageText m, aid)) ∧
    (∀ tr : FetchOutcome AddResponse,
      (tr = FetchOutcome.throws ∨ ∃ s, tr = FetchOutcome.httpError s) →
      (Mem0Client.add tr).1 = none) := by
  refine ⟨agent_end_run_eq_filter world aid msgs k, ?_⟩
  rintro tr (h | ⟨s, h⟩) <;> subst h <;> rfl

/-- C7 (witness): with the first add call failing (rejecting transport),
both of two qualifying messages still get their add calls issued. -/
theorem c7_witness :
    agent_end_run (fun _ => FetchOutcome.throws) none [msg50, msg50] 0 =
      [(messageText msg50, none), (messageText msg50, none)] ∧
      (Mem0Client.add FetchOutcome.throws).1 = none := by
  refine ⟨?_, (c7_capture_stores_independently (fun _ => FetchOutcome.throws)
      none [msg50, msg50] 0).2 FetchOutcome.throws (Or.inl rfl)⟩
  rw [(c7_capture_stores_independently (fun _ => FetchOutcome.throws)
      none [msg50, msg50] 0).1]
  decide

/-! ## Claim C8 — store with no agent id -/

/-- C8: storing a content string with no agent id issues exactly one POST to
`/memories` whose body carries the configured user id and no `agent_id`
metadata (the `metadata` field is `undefined`, dropped by
`JSON.stringify`); on a successful response the `memory_store` tool outputs
`Stored in memory: ` followed by the server-returned stored-memory text. -/
theorem c8_store_request_and_output (cfg : Mem0Config) (content : String) :
    Mem0Client.addRequests cfg content none =
      [{ method := "POST", path := "/memories",
         body := some { content := content, user_id := cfg.userId,
                        metadata := none } }] ∧
    (∀ item : AddResultItem,
      memory_store_output
          (some { success := true, result := { results := [item] } }) =
        "Stored in memory: " ++ item.memory) := by
  exact ⟨rfl, fun _ => rfl⟩

/-! ## Claim C9 — falsy configuration values fall back to defaults -/

/-- C9: configuration parsing replaces any falsy supplied value with the
built-in default, not only missing fields: a supplied `recallThreshold` of 0
becomes 0.4, a `recallLimit` of 0 becomes 5, an empty `userId` becomes
`openclaw` — so for this explicitly supplied configuration the effective
value differs from the supplied one. -/
theorem c9_falsy_config_replaced_by_defaults :
    (configSchema.parse (some falsyRawConfig)).recallThreshold = 0.4 ∧
    (configSchema.parse (some falsyRawConfig)).recallLimit = 5 ∧
    (configSchema.parse (some falsyRawConfig)).userId = "openclaw" ∧
    ∃ (raw : RawConfig) (x : ℚ), raw.recallThreshold = some x ∧
      (configSchema.parse (some raw)).recallThreshold ≠ x := by
  refine ⟨by simp [configSchema.parse, falsyRawConfig, jsOrNum],
    by simp [configSchema.parse, falsyRawConfig, jsOrNum],
    by simp [configSchema.parse, falsyRawConfig, jsOrString],
    ⟨falsyRawConfig, 0, rfl, ?_⟩⟩
  simp only [configSchema.parse, falsyRawConfig, jsOrNum, Option.getD_some]
  norm_num

/-! ## Claim C10 — an absent score compares as zero -/

/-- C10: in the recall filter, a result with no score field is compared as
if its score were 0 (`m.score || 0`, line 391); hence for every threshold
strictly greater than 0, an unscored result is never among the relevant
memories of the injected block. -/
theorem c10_unscored_compares_as_zero (cfg : Mem0Config) (ms : List Memory)
    (m : Memory) (h : m.score = none) :
    scoreOrZero m = 0 ∧
      (0 < cfg.recallThreshold → m ∉ relevantMemories cfg ms) := by
  have hz : scoreOrZero m = 0 := by simp [scoreOrZero, h]
  refine ⟨hz, fun hθ hmem => ?_⟩
  have hle := ((mem_relevantMemories cfg ms m).mp hmem).2
  rw [hz] at hle
  exact absurd hle (not_le.mpr hθ)

/-- C10 (witness): with the default 0.4 threshold, an unscored result is
compared as 0 and excluded. -/
theorem c10_witness :
    scoreOrZero memUnscored = 0 ∧
      memUnscored ∉ relevantMemories defaultConfig [memUnscored] :=
  ⟨(c10_unscored_compares_as_zero defaultConfig [memUnscored]
      memUnscored rfl).1,
   (c10_unscored_compares_as_zero defaultConfig [memUnscored]
      memUnscored rfl).2 ((by norm_num : (0 : ℚ) < 0.4))⟩
